import Mathlib

/-!
# Verification of the SQL article data-access layer

Shallow embedding of the Python data-access layer under `lib/` (entity models
`Author`, `Magazine`, `Article` over a SQLite store opened by
`lib/db/connection.py`), together with proofs about the claims of the
specification.

Modelling conventions:
* A SQLite value is a `Value` (`vstr`, `vint`, `vnull`).  Python strings map to
  `vstr`, Python `None` to `vnull`, other non-string Python values are
  represented by `vint` (the representative non-string type; validation treats
  every non-`vstr` value the same way, as the `isinstance(c, str)` check of the source
  does).
* The store (`articles.db`) is a `DB`: the three tables as lists of rows in
  insertion order.  `INTEGER PRIMARY KEY` row ids are generated as
  `max existing id + 1` (the `lastrowid` behaviour of SQLite).
* TEXT columns have TEXT affinity: a non-string bind value is converted to its
  text form on storage (`applyTextAffinity`).
* `lib/db/connection.py` opens connections with plain `sqlite3.connect` and
  never issues `PRAGMA foreign_keys = ON`.  SQLite leaves foreign-key
  enforcement OFF by default, so `REFERENCES ... ON DELETE CASCADE` clauses of
  the schema are inert on every connection the code opens: inserts do not check
  foreign keys and deletes do not cascade.  The embedding reflects this.
* A Python operation that can raise is embedded with an `Except Err` result;
  operations whose source catches every exception (`except Exception`) are
  embedded with `Option` results, mirroring their `return None` failure path.
* A commit point makes the changes durable: a later `rollback` in an exception
  handler is a no-op.  Operations are state transformers `DB → result × DB`.
-/

/-- A dynamically typed SQLite/Python value. -/
inductive Value where
  | vstr (s : String)
  | vint (n : Int)
  | vnull
  deriving DecidableEq, Repr

/-- TEXT affinity of SQLite TEXT columns: a non-string, non-null bind value is
stored as its text form; strings and NULL are stored unchanged. -/
def applyTextAffinity : Value → Value
  | .vint n => .vstr (toString n)
  | v => v

/-- SQLite `=` comparison: any comparison with NULL is not true. -/
def sqlEq (a b : Value) : Bool :=
  match a, b with
  | .vnull, _ => false
  | _, .vnull => false
  | a, b => a == b

/-- A row of the `authors` table (`id INTEGER PRIMARY KEY, name TEXT NOT NULL UNIQUE`). -/
structure AuthorRow where
  id : Nat
  name : Value
  deriving DecidableEq, Repr

/-- A row of the `magazines` table
(`id INTEGER PRIMARY KEY, name TEXT NOT NULL UNIQUE, category TEXT NOT NULL`). -/
structure MagazineRow where
  id : Nat
  name : Value
  category : Value
  deriving DecidableEq, Repr

/-- A row of the `articles` table (`id INTEGER PRIMARY KEY, title TEXT NOT NULL,
author_id INTEGER NOT NULL, magazine_id INTEGER NOT NULL`; the REFERENCES
clauses are not enforced because the connection never enables foreign keys). -/
structure ArticleRow where
  id : Nat
  title : Value
  author_id : Nat
  magazine_id : Nat
  deriving DecidableEq, Repr

/-- The single-file relational store: the three tables in insertion order. -/
structure DB where
  authors : List AuthorRow
  magazines : List MagazineRow
  articles : List ArticleRow
  deriving DecidableEq, Repr

/-- The empty store (fresh `articles.db` right after `create_tables`). -/
def DB.empty : DB := ⟨[], [], []⟩

/-- Largest id present in a list of ids (0 when empty). -/
def maxId (ids : List Nat) : Nat := ids.foldr max 0

/-- `lastrowid` for an insert into `authors`. -/
def nextAuthorId (db : DB) : Nat := maxId (db.authors.map (fun r => r.id)) + 1

/-- `lastrowid` for an insert into `magazines`. -/
def nextMagazineId (db : DB) : Nat := maxId (db.magazines.map (fun r => r.id)) + 1

/-- `lastrowid` for an insert into `articles`. -/
def nextArticleId (db : DB) : Nat := maxId (db.articles.map (fun r => r.id)) + 1

/-- The exception kinds the layer can raise: `ValueError` from validation,
`TypeError` from `add_article`. -/
inductive Err where
  | validationError (msg : String)
  | typeError (msg : String)
  deriving DecidableEq, Repr

/-- Is this error a validation (`ValueError`) error? -/
def Err.isValidation : Err → Bool
  | .validationError _ => true
  | _ => false

/-- `isinstance(name, str) and 0 < len(name) <= 255` (author.py). -/
def authorNameOk : Value → Bool
  | .vstr s => decide (0 < s.length ∧ s.length ≤ 255)
  | _ => false

/-- `isinstance(name, str) and 2 <= len(name) <= 16` (magazine.py). -/
def magazineNameOk : Value → Bool
  | .vstr s => decide (2 ≤ s.length ∧ s.length ≤ 16)
  | _ => false

/-- `isinstance(category, str) and 0 < len(category) <= 20` (magazine.py). -/
def magazineCategoryOk : Value → Bool
  | .vstr s => decide (0 < s.length ∧ s.length ≤ 20)
  | _ => false

/-- `isinstance(title, str) and 0 < len(title) <= 50` (article.py). -/
def articleTitleOk : Value → Bool
  | .vstr s => decide (0 < s.length ∧ s.length ≤ 50)
  | _ => false

/-- A list comprehension `[f row for row in rows]` where `f` can raise: the
first exception propagates. -/
def mapExcept (f : α → Except Err β) : List α → Except Err (List β)
  | [] => .ok []
  | x :: xs =>
    match f x with
    | .error e => .error e
    | .ok b =>
      match mapExcept f xs with
      | .error e => .error e
      | .ok bs => .ok (b :: bs)

/-- In-memory `Author` instance: `self._name`, `self._id`. -/
structure Author where
  name : Value
  id : Option Nat
  deriving DecidableEq, Repr

/-- In-memory `Magazine` instance: `self._name`, `self._category`, `self._id`. -/
structure Magazine where
  name : Value
  category : Value
  id : Option Nat
  deriving DecidableEq, Repr

/-- In-memory `Article` instance: `self._title`, `self._author_id`,
`self._magazine_id`, `self._id`. -/
structure Article where
  title : Value
  author_id : Option Nat
  magazine_id : Option Nat
  id : Option Nat
  deriving DecidableEq, Repr

/-- `Author.__init__`: validates the name, raising `ValueError` on failure. -/
def Author.init (name : Value) (id : Option Nat) : Except Err Author :=
  if authorNameOk name then .ok ⟨name, id⟩
  else .error (.validationError "Name must be a string between 1 and 255 characters.")

/-- `Author.__init__` viewed as an operation on the store: the constructor
contains no database call, so the store is returned unchanged. -/
def Author.initOp (name : Value) (id : Option Nat) (db : DB) :
    Except Err Author × DB :=
  (Author.init name id, db)

/-- `Author._create_instance(row)`: re-constructs an `Author` from a row,
through the validating constructor. -/
def Author.create_instance (row : AuthorRow) : Except Err Author :=
  Author.init row.name (some row.id)

/-- `Magazine.__init__` / `_validate_name_category`: name is checked first,
then category; `ValueError` on failure. -/
def Magazine.init (name category : Value) (id : Option Nat) : Except Err Magazine :=
  if magazineNameOk name = false then
    .error (.validationError "Name must be a string between 2 and 16 characters.")
  else if magazineCategoryOk category = false then
    .error (.validationError "Category must be a string between 1 and 20 characters.")
  else .ok ⟨name, category, id⟩

/-- `Magazine.__init__` viewed as an operation on the store: no database call. -/
def Magazine.initOp (name category : Value) (id : Option Nat) (db : DB) :
    Except Err Magazine × DB :=
  (Magazine.init name category id, db)

/-- `Magazine._create_instance(row)`. -/
def Magazine.create_instance (row : MagazineRow) : Except Err Magazine :=
  Magazine.init row.name row.category (some row.id)

/-- `Article.__init__` / `_validate_title`: validates the title. -/
def Article.init (title : Value) (author_id magazine_id : Option Nat)
    (id : Option Nat) : Except Err Article :=
  if articleTitleOk title then .ok ⟨title, author_id, magazine_id, id⟩
  else .error (.validationError "Title must be a string between 1 and 50 characters.")

/-- `Article.__init__` viewed as an operation on the store: no database call. -/
def Article.initOp (title : Value) (author_id magazine_id : Option Nat)
    (id : Option Nat) (db : DB) : Except Err Article × DB :=
  (Article.init title author_id magazine_id id, db)

/-- `Article._create_instance(row)`. -/
def Article.create_instance (row : ArticleRow) : Except Err Article :=
  Article.init row.title (some row.author_id) (some row.magazine_id) (some row.id)

/-- `Author.create(name)`:
`INSERT INTO authors (name) VALUES (?)`, `commit`, then construct the returned
instance (`cls(name, new_id)`), with `except Exception: rollback; return None`.
The INSERT fails (NOT NULL / UNIQUE) when the stored value is NULL or a row
with that name exists; that exception is caught before the commit, so the
rollback restores the store.  When the INSERT commits and the constructor then
raises `ValueError` (validation happens only here, after the commit), the
rollback in the handler is a no-op: the committed row remains. -/
def Author.create (name : Value) (db : DB) : Option Author × DB :=
  let stored := applyTextAffinity name
  if stored = Value.vnull ∨ ∃ r ∈ db.authors, sqlEq r.name stored then
    (none, db)
  else
    let new_id := nextAuthorId db
    let db2 : DB := { db with authors := db.authors ++ [⟨new_id, stored⟩] }
    match Author.init name (some new_id) with
    | .ok a => (some a, db2)
    | .error _ => (none, db2)

/-- `Author.update()`: no-op when `self.id` is None; otherwise
`UPDATE authors SET name = ? WHERE id = ?`, commit; on failure (UNIQUE or NOT
NULL violation) rollback, leaving the store unchanged. -/
def Author.update (a : Author) (db : DB) : DB :=
  match a.id with
  | none => db
  | some i =>
    let stored := applyTextAffinity a.name
    if stored = Value.vnull ∨ ∃ r ∈ db.authors, r.id ≠ i ∧ sqlEq r.name stored then
      db
    else
      { db with authors :=
          db.authors.map (fun r => if r.id = i then { r with name := stored } else r) }

/-- `Author.save()`: when `self.id` is None, INSERT and assign `lastrowid`
(exceptions caught, instance left without id); otherwise delegates to update. -/
def Author.save (a : Author) (db : DB) : Author × DB :=
  match a.id with
  | none =>
    let stored := applyTextAffinity a.name
    if stored = Value.vnull ∨ ∃ r ∈ db.authors, sqlEq r.name stored then
      (a, db)
    else
      let new_id := nextAuthorId db
      ({ a with id := some new_id },
       { db with authors := db.authors ++ [⟨new_id, stored⟩] })
  | some _ => (a, Author.update a db)

/-- `Author.delete()`: no-op when `self.id` is None; otherwise
`DELETE FROM authors WHERE id = ?`, commit, and set the in-memory id to None.
Foreign keys are not enforced on the connections the code opens (no
`PRAGMA foreign_keys = ON` in connection.py), so the `ON DELETE CASCADE`
of the schema does not fire: `articles` rows are untouched. -/
def Author.delete (a : Author) (db : DB) : Author × DB :=
  match a.id with
  | none => (a, db)
  | some i =>
    ({ a with id := none },
     { db with authors := db.authors.filter (fun r => r.id != i) })

/-- Modelled from the spec: `lib/db/schema.sql` is not under `src/`; spec
section 6 declares `articles.author_id INTEGER NOT NULL REFERENCES authors(id)
ON DELETE CASCADE`.  This is `Author.delete` as it would behave with the
cascade enforced: the row of the author and every article row referencing it are
removed. -/
def Author.delete_cascade (a : Author) (db : DB) : Author × DB :=
  match a.id with
  | none => (a, db)
  | some i =>
    ({ a with id := none },
     { db with
        authors := db.authors.filter (fun r => r.id != i),
        articles := db.articles.filter (fun r => r.author_id != i) })

/-- `Author.find_by_id(author_id)`: `SELECT * FROM authors WHERE id = ?`,
`fetchone`, then `_create_instance(row) if row else None`.  There is no
`except` clause: a `ValueError` from the constructor propagates. -/
def Author.find_by_id (author_id : Nat) (db : DB) : Except Err (Option Author) :=
  match db.authors.find? (fun r => r.id == author_id) with
  | none => .ok none
  | some row =>
    match Author.create_instance row with
    | .ok a => .ok (some a)
    | .error e => .error e

/-- `Author.find_by_name(name)`: `SELECT * FROM authors WHERE name = ?`. -/
def Author.find_by_name (name : Value) (db : DB) : Except Err (Option Author) :=
  match db.authors.find? (fun r => sqlEq r.name name) with
  | none => .ok none
  | some row =>
    match Author.create_instance row with
    | .ok a => .ok (some a)
    | .error e => .error e

/-- `Author.get_all()`: `SELECT * FROM authors`, rows in insertion order, each
re-constructed through the validating constructor. -/
def Author.get_all (db : DB) : Except Err (List Author) :=
  mapExcept Author.create_instance db.authors

/-- `Author.name` setter: validates, assigns `self._name`, then calls
`self.update()`.  A `ValueError` leaves both the instance and the store
untouched. -/
def Author.set_name (a : Author) (value : Value) (db : DB) : Except Err Author × DB :=
  if authorNameOk value then
    let a2 : Author := { a with name := value }
    (.ok a2, Author.update a2 db)
  else
    (.error (.validationError "Name must be a string between 1 and 255 characters."), db)

/-- `Magazine.create(name, category)`: same shape as `Author.create`; the
INSERT commits before the returned instance is constructed, so a validation
failure leaves the committed row in place. -/
def Magazine.create (name category : Value) (db : DB) : Option Magazine × DB :=
  let sname := applyTextAffinity name
  let scat := applyTextAffinity category
  if sname = Value.vnull ∨ scat = Value.vnull ∨ ∃ r ∈ db.magazines, sqlEq r.name sname then
    (none, db)
  else
    let new_id := nextMagazineId db
    let db2 : DB := { db with magazines := db.magazines ++ [⟨new_id, sname, scat⟩] }
    match Magazine.init name category (some new_id) with
    | .ok m => (some m, db2)
    | .error _ => (none, db2)

/-- `Magazine.update()`: no-op when `self.id` is None; otherwise
`UPDATE magazines SET name = ?, category = ? WHERE id = ?`, commit; on a
constraint failure rollback, leaving the store unchanged. -/
def Magazine.update (m : Magazine) (db : DB) : DB :=
  match m.id with
  | none => db
  | some i =>
    let sname := applyTextAffinity m.name
    let scat := applyTextAffinity m.category
    if sname = Value.vnull ∨ scat = Value.vnull ∨
        ∃ r ∈ db.magazines, r.id ≠ i ∧ sqlEq r.name sname then
      db
    else
      { db with magazines :=
          db.magazines.map (fun r =>
            if r.id = i then { r with name := sname, category := scat } else r) }

/-- `Magazine.save()`. -/
def Magazine.save (m : Magazine) (db : DB) : Magazine × DB :=
  match m.id with
  | none =>
    let sname := applyTextAffinity m.name
    let scat := applyTextAffinity m.category
    if sname = Value.vnull ∨ scat = Value.vnull ∨ ∃ r ∈ db.magazines, sqlEq r.name sname then
      (m, db)
    else
      let new_id := nextMagazineId db
      ({ m with id := some new_id },
       { db with magazines := db.magazines ++ [⟨new_id, sname, scat⟩] })
  | some _ => (m, Magazine.update m db)

/-- `Magazine.delete()`: deletes only the row of the magazine; as with
`Author.delete`, foreign keys are unenforced so articles are untouched. -/
def Magazine.delete (m : Magazine) (db : DB) : Magazine × DB :=
  match m.id with
  | none => (m, db)
  | some i =>
    ({ m with id := none },
     { db with magazines := db.magazines.filter (fun r => r.id != i) })

/-- Modelled from the spec: `lib/db/schema.sql` is not under `src/`; spec
section 6 declares `articles.magazine_id INTEGER NOT NULL REFERENCES
magazines(id) ON DELETE CASCADE`.  `Magazine.delete` with the cascade
enforced. -/
def Magazine.delete_cascade (m : Magazine) (db : DB) : Magazine × DB :=
  match m.id with
  | none => (m, db)
  | some i =>
    ({ m with id := none },
     { db with
        magazines := db.magazines.filter (fun r => r.id != i),
        articles := db.articles.filter (fun r => r.magazine_id != i) })

/-- `Magazine.name` setter: validates, assigns, then `self.update()`. -/
def Magazine.set_name (m : Magazine) (value : Value) (db : DB) :
    Except Err Magazine × DB :=
  if magazineNameOk value then
    let m2 : Magazine := { m with name := value }
    (.ok m2, Magazine.update m2 db)
  else
    (.error (.validationError "Name must be a string between 2 and 16 characters."), db)

/-- `Magazine.category` setter: validates, assigns, then `self.update()`. -/
def Magazine.set_category (m : Magazine) (value : Value) (db : DB) :
    Except Err Magazine × DB :=
  if magazineCategoryOk value then
    let m2 : Magazine := { m with category := value }
    (.ok m2, Magazine.update m2 db)
  else
    (.error (.validationError "Category must be a string between 1 and 20 characters."), db)

/-- `Magazine.find_by_id(magazine_id)`: constructor errors propagate. -/
def Magazine.find_by_id (magazine_id : Nat) (db : DB) :
    Except Err (Option Magazine) :=
  match db.magazines.find? (fun r => r.id == magazine_id) with
  | none => .ok none
  | some row =>
    match Magazine.create_instance row with
    | .ok m => .ok (some m)
    | .error e => .error e

/-- `Magazine.find_by_name(name)`: `SELECT * FROM magazines WHERE name = ?`. -/
def Magazine.find_by_name (name : Value) (db : DB) : Except Err (Option Magazine) :=
  match db.magazines.find? (fun r => sqlEq r.name name) with
  | none => .ok none
  | some row =>
    match Magazine.create_instance row with
    | .ok m => .ok (some m)
    | .error e => .error e

/-- `Magazine.get_all()`. -/
def Magazine.get_all (db : DB) : Except Err (List Magazine) :=
  mapExcept Magazine.create_instance db.magazines

/-- `Article.create(title, author_id, magazine_id)`: the INSERT fails on a
NULL bind (NOT NULL columns); foreign keys are NOT checked (enforcement is off
on the connections the code opens).  As with the other models, the commit happens
before the returned instance is constructed, so an invalid title is already
committed when the constructor raises. -/
def Article.create (title : Value) (author_id magazine_id : Option Nat)
    (db : DB) : Option Article × DB :=
  let stored := applyTextAffinity title
  match author_id, magazine_id with
  | some aid, some mid =>
    if stored = Value.vnull then
      (none, db)
    else
      let new_id := nextArticleId db
      let db2 : DB := { db with articles := db.articles ++ [⟨new_id, stored, aid, mid⟩] }
      match Article.init title (some aid) (some mid) (some new_id) with
      | .ok x => (some x, db2)
      | .error _ => (none, db2)
  | _, _ => (none, db)

/-- `Article.update()`: no-op when `self.id` is None; otherwise writes title,
author_id and magazine_id to the matching row. -/
def Article.update (x : Article) (db : DB) : DB :=
  match x.id, x.author_id, x.magazine_id with
  | some i, some aid, some mid =>
    let stored := applyTextAffinity x.title
    if stored = Value.vnull then db
    else
      { db with articles :=
          db.articles.map (fun r =>
            if r.id = i then { r with title := stored, author_id := aid, magazine_id := mid }
            else r) }
  | _, _, _ => db

/-- `Article.title` setter: validates, assigns, then `self.update()`. -/
def Article.set_title (x : Article) (value : Value) (db : DB) :
    Except Err Article × DB :=
  if articleTitleOk value then
    let x2 : Article := { x with title := value }
    (.ok x2, Article.update x2 db)
  else
    (.error (.validationError "Title must be a string between 1 and 50 characters."), db)

/-- `Article.find_by_id(article_id)`: constructor errors propagate. -/
def Article.find_by_id (article_id : Nat) (db : DB) : Except Err (Option Article) :=
  match db.articles.find? (fun r => r.id == article_id) with
  | none => .ok none
  | some row =>
    match Article.create_instance row with
    | .ok x => .ok (some x)
    | .error e => .error e

/-- A Python value passed as the `magazine` argument of `add_article`: either a
`Magazine` instance or anything else (for which `isinstance(magazine,
Magazine)` is false). -/
inductive PyObj where
  | mag (m : Magazine)
  | other (v : Value)

/-- `Author.add_article(magazine, title)`: raises `TypeError` before touching
the store when the argument is not a `Magazine` instance; otherwise delegates
to `Article.create(title, self.id, magazine.id)`. -/
def Author.add_article (a : Author) (magazine : PyObj) (title : Value)
    (db : DB) : Except Err (Option Article) × DB :=
  match magazine with
  | .mag m =>
    let r := Article.create title a.id m.id db
    (.ok r.1, r.2)
  | .other _ =>
    (.error (.typeError "magazine must be an instance of Magazine."), db)

/-- The article rows of a given author in a given magazine: the join rows of
`articles art` with `art.author_id = a.id AND art.magazine_id = ?`. -/
def articlesByAuthorInMag (db : DB) (aid mid : Nat) : List ArticleRow :=
  db.articles.filter (fun art => art.author_id == aid && art.magazine_id == mid)

/-- `Magazine.contributing_authors()`:
`SELECT a.*, COUNT(art.id) FROM authors a JOIN articles art ON a.id =
art.author_id WHERE art.magazine_id = ? GROUP BY a.id HAVING COUNT(art.id) > 2`.
Author ids are a PRIMARY KEY, so grouping by `a.id` gives one group per
authors row whose count is its number of matching article rows; authors
without matching articles are excluded by the inner join (and by the HAVING
clause).  A None magazine id (`WHERE art.magazine_id = NULL`) matches nothing.
Each resulting row is re-constructed through the validating constructor. -/
def Magazine.contributing_authors (m : Magazine) (db : DB) :
    Except Err (List Author) :=
  match m.id with
  | none => .ok []
  | some mid =>
    mapExcept Author.create_instance
      (db.authors.filter (fun a => decide ((articlesByAuthorInMag db a.id mid).length > 2)))

/-- `COUNT(a.id)` of the LEFT JOIN group of one magazine: the number of article
rows referencing it. -/
def magazineArticleCount (db : DB) (mid : Nat) : Nat :=
  (db.articles.filter (fun a => a.magazine_id == mid)).length

/-- `Magazine.top_publisher()`:
`SELECT m.*, COUNT(a.id) FROM magazines m LEFT JOIN articles a ON m.id =
a.magazine_id GROUP BY m.id ORDER BY article_count DESC LIMIT 1`.
The LEFT JOIN keeps magazines with zero articles (count 0).  Which row wins a
tie in the count is engine-defined; the model keeps the earliest row of the
table, one realization of `ORDER BY ... DESC LIMIT 1` (the claims proved below
depend only on maximality of the count).  The winning row is re-constructed
through the validating constructor. -/
def Magazine.top_publisher (db : DB) : Except Err (Option Magazine) :=
  match db.magazines.argmax (fun r => magazineArticleCount db r.id) with
  | none => .ok none
  | some row =>
    match Magazine.create_instance row with
    | .ok m => .ok (some m)
    | .error e => .error e

/-- A store shaped like the seed data of `test_author.py`: one author, one magazine, one
article written by that author in that magazine. -/
def dbSeed : DB :=
  ⟨[⟨1, .vstr "John Doe"⟩],
   [⟨1, .vstr "Tech Today", .vstr "Technology"⟩],
   [⟨1, .vstr "The Future of AI", 1, 1⟩]⟩

/-- A store where author 1 has exactly two articles in magazine 1. -/
def dbTwoArticles : DB :=
  ⟨[⟨1, .vstr "John Doe"⟩],
   [⟨1, .vstr "Tech Today", .vstr "Technology"⟩],
   [⟨1, .vstr "The Future of AI", 1, 1⟩, ⟨2, .vstr "AI Ethics", 1, 1⟩]⟩

/-- A store holding rows that violate the validation constraints: an author
with an empty name, a magazine with a 1-character name, an article with an
empty title. -/
def dbBadRows : DB :=
  ⟨[⟨1, .vstr ""⟩],
   [⟨1, .vstr "a", .vstr "Cat"⟩],
   [⟨1, .vstr "", 1, 1⟩]⟩

-- quick sanity checks of the embedding (concrete evaluations)
example : (Author.create (.vstr "John Doe") DB.empty).1
    = some ⟨.vstr "John Doe", some 1⟩ := by decide
example : (Author.create (.vstr "") DB.empty).2.authors = [⟨1, .vstr ""⟩] := by decide
example : (Author.create (.vstr "") DB.empty).1 = none := by decide
example : (Author.create Value.vnull DB.empty).2 = DB.empty := by decide
example : Author.find_by_id 1 (Author.create (.vstr "Jo") DB.empty).2
    = .ok (some ⟨.vstr "Jo", some 1⟩) := rfl
example : Magazine.top_publisher DB.empty = .ok none := rfl
example :
    Magazine.top_publisher ⟨[], [⟨1, .vstr "Tech Today", .vstr "Technology"⟩], []⟩
      = .ok (some ⟨.vstr "Tech Today", .vstr "Technology", some 1⟩) := rfl
example :
    Magazine.contributing_authors ⟨.vstr "Tech Today", .vstr "Technology", some 1⟩
      ⟨[⟨1, .vstr "John Doe"⟩],
       [⟨1, .vstr "Tech Today", .vstr "Technology"⟩],
       [⟨1, .vstr "A", 1, 1⟩, ⟨2, .vstr "B", 1, 1⟩, ⟨3, .vstr "C", 1, 1⟩]⟩
      = .ok [⟨.vstr "John Doe", some 1⟩] := rfl
example :
    Magazine.contributing_authors ⟨.vstr "Tech Today", .vstr "Technology", some 1⟩
      ⟨[⟨1, .vstr "John Doe"⟩],
       [⟨1, .vstr "Tech Today", .vstr "Technology"⟩],
       [⟨1, .vstr "A", 1, 1⟩, ⟨2, .vstr "B", 1, 1⟩]⟩
      = .ok [] := rfl
example :
    (Author.add_article ⟨.vstr "John Doe", some 1⟩ (.other (.vstr "not a magazine"))
      (.vstr "T") DB.empty).2 = DB.empty := rfl

/-! ## Helper lemmas -/

theorem le_maxId_of_mem {x : Nat} : ∀ {ids : List Nat}, x ∈ ids → x ≤ maxId ids
  | [], h => absurd h (List.not_mem_nil x)
  | a :: t, h => by
    rcases List.mem_cons.mp h with h1 | h2
    · subst h1; exact le_max_left _ _
    · exact le_trans (le_maxId_of_mem h2) (le_max_right _ _)

theorem mapExcept_ok_of_forall {α β : Type} {f : α → Except Err β} {g : α → β} :
    ∀ {l : List α}, (∀ x ∈ l, f x = .ok (g x)) → mapExcept f l = .ok (l.map g)
  | [], _ => rfl
  | x :: xs, h => by
    have hx := h x (List.mem_cons_self x xs)
    have hxs := mapExcept_ok_of_forall (fun y hy => h y (List.mem_cons_of_mem x hy))
    simp [mapExcept, hx, hxs]

theorem mapExcept_error_of_mem {α β : Type} (f : α → Except Err β) {P : Err → Prop}
    (hP : ∀ y e, f y = .error e → P e) :
    ∀ {l : List α} {x : α} {ex : Err}, x ∈ l → f x = .error ex →
      ∃ e, mapExcept f l = .error e ∧ P e
  | [], x, _, hmem, _ => absurd hmem (List.not_mem_nil x)
  | a :: t, x, ex, hmem, hfx => by
    cases hfa : f a with
    | error e => exact ⟨e, by simp [mapExcept, hfa], hP a e hfa⟩
    | ok b =>
      rcases List.mem_cons.mp hmem with h1 | h2
      · subst h1; rw [hfa] at hfx; cases hfx
      · obtain ⟨e, he, hPe⟩ := mapExcept_error_of_mem f hP h2 hfx
        exact ⟨e, by simp [mapExcept, hfa, he], hPe⟩

theorem sqlEq_vstr_iff {a : Value} {s : String} :
    sqlEq a (.vstr s) = true ↔ a = .vstr s := by
  cases a <;> simp [sqlEq]

theorem author_init_ok {s : String} (h1 : 0 < s.length) (h2 : s.length ≤ 255)
    (i : Option Nat) : Author.init (.vstr s) i = .ok ⟨.vstr s, i⟩ := by
  simp [Author.init, authorNameOk, h1, h2]

theorem magazine_init_ok {s c : String} (h1 : 2 ≤ s.length) (h2 : s.length ≤ 16)
    (h3 : 0 < c.length) (h4 : c.length ≤ 20) (i : Option Nat) :
    Magazine.init (.vstr s) (.vstr c) i = .ok ⟨.vstr s, .vstr c, i⟩ := by
  simp [Magazine.init, magazineNameOk, magazineCategoryOk, h1, h2, h3, h4]

theorem article_init_ok {s : String} (h1 : 0 < s.length) (h2 : s.length ≤ 50)
    (x y i : Option Nat) :
    Article.init (.vstr s) x y i = .ok ⟨.vstr s, x, y, i⟩ := by
  simp [Article.init, articleTitleOk, h1, h2]

theorem authorRow_id_lt_next {db : DB} {r : AuthorRow} (h : r ∈ db.authors) :
    r.id < nextAuthorId db :=
  Nat.lt_succ_of_le (le_maxId_of_mem (List.mem_map_of_mem (fun r => r.id) h))

theorem magazineRow_id_lt_next {db : DB} {r : MagazineRow} (h : r ∈ db.magazines) :
    r.id < nextMagazineId db :=
  Nat.lt_succ_of_le (le_maxId_of_mem (List.mem_map_of_mem (fun r => r.id) h))

theorem articleRow_id_lt_next {db : DB} {r : ArticleRow} (h : r ∈ db.articles) :
    r.id < nextArticleId db :=
  Nat.lt_succ_of_le (le_maxId_of_mem (List.mem_map_of_mem (fun r => r.id) h))

/-! ## Claims -/

/-- C1: claim refuted by the code (code bug).  The claim says an invalid field
value never reaches storage through any operation.  But every `create` INSERTs
and COMMITs the raw value first and validates it only afterwards, while
constructing the returned instance; the `rollback` in the exception handler is
a no-op after the commit.  Evaluating the code: `Author.create("")`,
`Magazine.create("Tech Today", "")` and `Article.create("", 1, 1)` each return
`None` yet leave a committed row holding the invalid (here empty) value. -/
theorem claim_c1_create_commits_invalid_value :
    (authorNameOk (.vstr "") = false ∧
      Author.create (.vstr "") DB.empty = (none, ⟨[⟨1, .vstr ""⟩], [], []⟩)) ∧
    (magazineCategoryOk (.vstr "") = false ∧
      Magazine.create (.vstr "Tech Today") (.vstr "") DB.empty
        = (none, ⟨[], [⟨1, .vstr "Tech Today", .vstr ""⟩], []⟩)) ∧
    (articleTitleOk (.vstr "") = false ∧
      Article.create (.vstr "") (some 1) (some 1) dbSeed
        = (none, ⟨[⟨1, .vstr "John Doe"⟩],
                  [⟨1, .vstr "Tech Today", .vstr "Technology"⟩],
                  [⟨1, .vstr "The Future of AI", 1, 1⟩, ⟨2, .vstr "", 1, 1⟩]⟩)) := by
  decide

/-- C2: claim refuted by the code (code bug).  `connection.py` opens every
connection with plain `sqlite3.connect` and never issues
`PRAGMA foreign_keys = ON`, and SQLite leaves foreign-key enforcement off by
default, so the `ON DELETE CASCADE` of the schema (spec section 6; `schema.sql` is
not in the sources) never fires.  On a store with one author, one magazine and
one article referencing both: deleting the author (or the magazine) removes
only its own row — the referencing article row remains — although
`find_by_id` for the deleted entity does return `None`.  The spec-modelled
cascade variants show what the claim expects: the article row removed. -/
theorem claim_c2_delete_leaves_referencing_articles :
    ((Author.delete ⟨.vstr "John Doe", some 1⟩ dbSeed).2.articles
        = [⟨1, .vstr "The Future of AI", 1, 1⟩] ∧
      Author.find_by_id 1 (Author.delete ⟨.vstr "John Doe", some 1⟩ dbSeed).2
        = .ok none ∧
      (Author.delete_cascade ⟨.vstr "John Doe", some 1⟩ dbSeed).2.articles = []) ∧
    ((Magazine.delete ⟨.vstr "Tech Today", .vstr "Technology", some 1⟩ dbSeed).2.articles
        = [⟨1, .vstr "The Future of AI", 1, 1⟩] ∧
      Magazine.find_by_id 1
          (Magazine.delete ⟨.vstr "Tech Today", .vstr "Technology", some 1⟩ dbSeed).2
        = .ok none ∧
      (Magazine.delete_cascade ⟨.vstr "Tech Today", .vstr "Technology", some 1⟩
          dbSeed).2.articles = []) :=
  ⟨⟨rfl, rfl, rfl⟩, ⟨rfl, rfl, rfl⟩⟩

/-- C3 counterexample: the claim as stated is false.  Calling `create` with an
invalid field value does not raise: each `create` wraps its whole body in
`except Exception`, so the `ValueError` raised while constructing the returned
instance is caught and `None` is returned instead. -/
theorem claim_c3_counterexample :
    (Author.create (.vstr "") DB.empty).1 = none ∧
    (Magazine.create (.vstr "ValidName") (.vstr "") DB.empty).1 = none ∧
    (Article.create (.vstr "") (some 1) (some 1) dbSeed).1 = none := by
  decide

/-- C3 amended: for every invalid field value, `create` returns `None` (the
`ValidationError` raised while constructing the returned entity is caught by
the catch-all exception handler of `create`); no exception propagates to the
caller. -/
theorem claim_c3_amended_create_returns_none
    (nameA nameM catM titleX : Value) (aid mid : Option Nat) (db1 db2 db3 : DB)
    (hA : authorNameOk nameA = false)
    (hM : (magazineNameOk nameM && magazineCategoryOk catM) = false)
    (hX : articleTitleOk titleX = false) :
    (Author.create nameA db1).1 = none ∧
    (Magazine.create nameM catM db2).1 = none ∧
    (Article.create titleX aid mid db3).1 = none := by
  refine ⟨?_, ?_, ?_⟩
  · by_cases hc : (applyTextAffinity nameA = Value.vnull ∨
        ∃ r ∈ db1.authors, sqlEq r.name (applyTextAffinity nameA))
    · simp [Author.create, hc]
    · simp [Author.create, hc, Author.init, hA]
  · by_cases hc : (applyTextAffinity nameM = Value.vnull ∨
        applyTextAffinity catM = Value.vnull ∨
        ∃ r ∈ db2.magazines, sqlEq r.name (applyTextAffinity nameM))
    · simp [Magazine.create, hc]
    · cases hn : magazineNameOk nameM with
      | false => simp [Magazine.create, hc, Magazine.init, hn]
      | true =>
        have hcat : magazineCategoryOk catM = false := by simpa [hn] using hM
        simp [Magazine.create, hc, Magazine.init, hn, hcat]
  · cases aid with
    | none => cases mid <;> rfl
    | some a0 =>
      cases mid with
      | none => rfl
      | some m0 =>
        by_cases hc : applyTextAffinity titleX = Value.vnull
        · simp [Article.create, hc]
        · simp [Article.create, hc, Article.init, hX]

/-- C3 witness: the amended statement at concrete inputs. -/
theorem claim_c3_amended_witness :
    (Author.create (.vstr "") DB.empty).1 = none ∧
    (Magazine.create (.vstr "ab") (.vstr "") DB.empty).1 = none ∧
    (Article.create Value.vnull (some 1) (some 1) dbSeed).1 = none :=
  claim_c3_amended_create_returns_none (.vstr "") (.vstr "ab") (.vstr "")
    Value.vnull (some 1) (some 1) DB.empty DB.empty dbSeed
    (by decide) (by decide) (by decide)

/-- C4: confirmed.  For any store and any in-bounds field values (with the
name not yet taken, since `authors.name` and `magazines.name` are UNIQUE, and
the foreign keys of the article denoting existing rows, as the claim assumes),
`create` succeeds with the freshly generated id and `find_by_id` on that id
returns an entity with identical fields, for all three models. -/
theorem claim_c4_create_find_roundtrip
    (db1 db2 db3 : DB) (an mn mc t : String) (aid mid : Nat)
    (han1 : 0 < an.length) (han2 : an.length ≤ 255)
    (hanfresh : ∀ r ∈ db1.authors, r.name ≠ Value.vstr an)
    (hmn1 : 2 ≤ mn.length) (hmn2 : mn.length ≤ 16)
    (hmc1 : 0 < mc.length) (hmc2 : mc.length ≤ 20)
    (hmnfresh : ∀ r ∈ db2.magazines, r.name ≠ Value.vstr mn)
    (ht1 : 0 < t.length) (ht2 : t.length ≤ 50)
    (haid : ∃ r ∈ db3.authors, r.id = aid)
    (hmid : ∃ r ∈ db3.magazines, r.id = mid) :
    ((Author.create (.vstr an) db1).1
        = some ⟨.vstr an, some (nextAuthorId db1)⟩ ∧
      Author.find_by_id (nextAuthorId db1) (Author.create (.vstr an) db1).2
        = .ok (some ⟨.vstr an, some (nextAuthorId db1)⟩)) ∧
    ((Magazine.create (.vstr mn) (.vstr mc) db2).1
        = some ⟨.vstr mn, .vstr mc, some (nextMagazineId db2)⟩ ∧
      Magazine.find_by_id (nextMagazineId db2)
          (Magazine.create (.vstr mn) (.vstr mc) db2).2
        = .ok (some ⟨.vstr mn, .vstr mc, some (nextMagazineId db2)⟩)) ∧
    ((Article.create (.vstr t) (some aid) (some mid) db3).1
        = some ⟨.vstr t, some aid, some mid, some (nextArticleId db3)⟩ ∧
      Article.find_by_id (nextArticleId db3)
          (Article.create (.vstr t) (some aid) (some mid) db3).2
        = .ok (some ⟨.vstr t, some aid, some mid, some (nextArticleId db3)⟩)) := by
  have hall1 : ∀ x ∈ db1.authors, sqlEq x.name (Value.vstr an) = false := by
    intro x hx
    cases h : sqlEq x.name (Value.vstr an) with
    | false => rfl
    | true => exact absurd (sqlEq_vstr_iff.mp h) (hanfresh x hx)
  have hnone1 : db1.authors.find? (fun r => r.id == nextAuthorId db1) = none := by
    refine List.find?_eq_none.mpr (fun x hx => ?_)
    simpa using Nat.ne_of_lt (authorRow_id_lt_next hx)
  have hcreate1 : Author.create (.vstr an) db1
      = (some ⟨.vstr an, some (nextAuthorId db1)⟩,
         { db1 with authors := db1.authors ++ [⟨nextAuthorId db1, .vstr an⟩] }) := by
    simp [Author.create, applyTextAffinity, author_init_ok han1 han2]
    exact hall1
  have hall2 : ∀ x ∈ db2.magazines, sqlEq x.name (Value.vstr mn) = false := by
    intro x hx
    cases h : sqlEq x.name (Value.vstr mn) with
    | false => rfl
    | true => exact absurd (sqlEq_vstr_iff.mp h) (hmnfresh x hx)
  have hnone2 : db2.magazines.find? (fun r => r.id == nextMagazineId db2) = none := by
    refine List.find?_eq_none.mpr (fun x hx => ?_)
    simpa using Nat.ne_of_lt (magazineRow_id_lt_next hx)
  have hcreate2 : Magazine.create (.vstr mn) (.vstr mc) db2
      = (some ⟨.vstr mn, .vstr mc, some (nextMagazineId db2)⟩,
         { db2 with magazines :=
            db2.magazines ++ [⟨nextMagazineId db2, .vstr mn, .vstr mc⟩] }) := by
    simp [Magazine.create, applyTextAffinity, magazine_init_ok hmn1 hmn2 hmc1 hmc2]
    exact hall2
  have hnone3 : db3.articles.find? (fun r => r.id == nextArticleId db3) = none := by
    refine List.find?_eq_none.mpr (fun x hx => ?_)
    simpa using Nat.ne_of_lt (articleRow_id_lt_next hx)
  have hcreate3 : Article.create (.vstr t) (some aid) (some mid) db3
      = (some ⟨.vstr t, some aid, some mid, some (nextArticleId db3)⟩,
         { db3 with articles :=
            db3.articles ++ [⟨nextArticleId db3, .vstr t, aid, mid⟩] }) := by
    simp [Article.create, article_init_ok ht1 ht2, applyTextAffinity]
  refine ⟨⟨by rw [hcreate1], ?_⟩, ⟨by rw [hcreate2], ?_⟩, ⟨by rw [hcreate3], ?_⟩⟩
  · rw [hcreate1]
    simp [Author.find_by_id, hnone1, Author.create_instance, author_init_ok han1 han2]
  · rw [hcreate2]
    simp [Magazine.find_by_id, hnone2, Magazine.create_instance,
      magazine_init_ok hmn1 hmn2 hmc1 hmc2]
  · rw [hcreate3]
    simp [Article.find_by_id, hnone3, Article.create_instance, article_init_ok ht1 ht2]

/-- C4 witness: the round trip at concrete inputs. -/
theorem claim_c4_witness :
    ((Author.create (.vstr "Jane Smith") DB.empty).1
        = some ⟨.vstr "Jane Smith", some 1⟩ ∧
      Author.find_by_id 1 (Author.create (.vstr "Jane Smith") DB.empty).2
        = .ok (some ⟨.vstr "Jane Smith", some 1⟩)) ∧
    ((Magazine.create (.vstr "Science Now") (.vstr "Science") DB.empty).1
        = some ⟨.vstr "Science Now", .vstr "Science", some 1⟩ ∧
      Magazine.find_by_id 1
          (Magazine.create (.vstr "Science Now") (.vstr "Science") DB.empty).2
        = .ok (some ⟨.vstr "Science Now", .vstr "Science", some 1⟩)) ∧
    ((Article.create (.vstr "Dark Matter") (some 1) (some 1) dbSeed).1
        = some ⟨.vstr "Dark Matter", some 1, some 1, some 2⟩ ∧
      Article.find_by_id 2
          (Article.create (.vstr "Dark Matter") (some 1) (some 1) dbSeed).2
        = .ok (some ⟨.vstr "Dark Matter", some 1, some 1, some 2⟩)) :=
  claim_c4_create_find_roundtrip DB.empty DB.empty dbSeed
    "Jane Smith" "Science Now" "Science" "Dark Matter" 1 1
    (by decide) (by decide) (by decide) (by decide) (by decide) (by decide)
    (by decide) (by decide) (by decide) (by decide) (by decide) (by decide)

/-- C7: confirmed.  `add_article` checks `isinstance(magazine, Magazine)`
before any database access: with a non-Magazine argument it raises a
`TypeError` and returns the store unchanged (no article row inserted); with a
Magazine argument it delegates to `Article.create(title, self.id,
magazine.id)`. -/
theorem claim_c7_add_article_type_guard :
    (∀ (a : Author) (v : Value) (t : Value) (db : DB),
      Author.add_article a (.other v) t db
        = (.error (.typeError "magazine must be an instance of Magazine."), db)) ∧
    (∀ (a : Author) (m : Magazine) (t : Value) (db : DB),
      Author.add_article a (.mag m) t db
        = (.ok (Article.create t a.id m.id db).1, (Article.create t a.id m.id db).2)) :=
  ⟨fun _ _ _ _ => rfl, fun _ _ _ _ => rfl⟩

/-- C10: confirmed.  On an unpersisted instance (id is None), a valid setter
assignment only changes the in-memory field: the triggered `update()` is a
no-op when the id is None, so the store is returned unchanged, for the name
setter of Author, the name and category setters of Magazine and the title
setter of Article. -/
theorem claim_c10_setter_on_unpersisted_leaves_storage
    (a : Author) (m : Magazine) (x : Article) (va vmn vmc vt : Value) (db : DB)
    (ha : a.id = none) (hm : m.id = none) (hx : x.id = none)
    (hva : authorNameOk va = true) (hvmn : magazineNameOk vmn = true)
    (hvmc : magazineCategoryOk vmc = true) (hvt : articleTitleOk vt = true) :
    Author.set_name a va db = (.ok { a with name := va }, db) ∧
    Magazine.set_name m vmn db = (.ok { m with name := vmn }, db) ∧
    Magazine.set_category m vmc db = (.ok { m with category := vmc }, db) ∧
    Article.set_title x vt db = (.ok { x with title := vt }, db) := by
  refine ⟨?_, ?_, ?_, ?_⟩
  · simp [Author.set_name, hva, Author.update, ha]
  · simp [Magazine.set_name, hvmn, Magazine.update, hm]
  · simp [Magazine.set_category, hvmc, Magazine.update, hm]
  · simp [Article.set_title, hvt, Article.update, hx]

/-- C10 witness: a valid assignment on unpersisted instances over the seed
store. -/
theorem claim_c10_witness :
    Author.set_name ⟨.vstr "Bob", none⟩ (.vstr "Robert") dbSeed
      = (.ok ⟨.vstr "Robert", none⟩, dbSeed) ∧
    Magazine.set_name ⟨.vstr "Mag One", .vstr "News", none⟩ (.vstr "Mag Two") dbSeed
      = (.ok ⟨.vstr "Mag Two", .vstr "News", none⟩, dbSeed) ∧
    Magazine.set_category ⟨.vstr "Mag One", .vstr "News", none⟩ (.vstr "Sport") dbSeed
      = (.ok ⟨.vstr "Mag One", .vstr "Sport", none⟩, dbSeed) ∧
    Article.set_title ⟨.vstr "Old", some 1, some 1, none⟩ (.vstr "New") dbSeed
      = (.ok ⟨.vstr "New", some 1, some 1, none⟩, dbSeed) :=
  claim_c10_setter_on_unpersisted_leaves_storage
    ⟨.vstr "Bob", none⟩ ⟨.vstr "Mag One", .vstr "News", none⟩
    ⟨.vstr "Old", some 1, some 1, none⟩
    (.vstr "Robert") (.vstr "Mag Two") (.vstr "Sport") (.vstr "New") dbSeed
    rfl rfl rfl (by decide) (by decide) (by decide) (by decide)

/-- Membership form of `List.argmax_mem` with the ranking function explicit. -/
theorem mem_of_argmax_fn {α : Type} (f : α → Nat) (l : List α) (m : α)
    (hm : l.argmax f = some m) : m ∈ l :=
  List.argmax_mem (Option.mem_def.mpr hm)

/-- Maximality form of `List.le_of_mem_argmax` with the ranking function
explicit. -/
theorem le_of_argmax_fn {α : Type} (f : α → Nat) (l : List α) (a m : α)
    (ha : a ∈ l) (hm : l.argmax f = some m) : f a ≤ f m :=
  List.le_of_mem_argmax ha (Option.mem_def.mpr hm)

/-- Re-construction of a valid author row succeeds. -/
theorem author_create_instance_ok {r : AuthorRow} (h : authorNameOk r.name = true) :
    Author.create_instance r = .ok ⟨r.name, some r.id⟩ := by
  simp [Author.create_instance, Author.init, h]

/-- Re-construction of a valid magazine row succeeds. -/
theorem magazine_create_instance_ok {r : MagazineRow}
    (h1 : magazineNameOk r.name = true) (h2 : magazineCategoryOk r.category = true) :
    Magazine.create_instance r = .ok ⟨r.name, r.category, some r.id⟩ := by
  simp [Magazine.create_instance, Magazine.init, h1, h2]

/-- On a store whose author rows are all valid, `contributing_authors` of a
persisted magazine returns the filtered author rows, re-constructed. -/
theorem contributing_authors_eq (db : DB) (m : Magazine) (mid : Nat)
    (hm : m.id = some mid)
    (hvalid : ∀ r ∈ db.authors, authorNameOk r.name = true) :
    Magazine.contributing_authors m db
      = .ok ((db.authors.filter
          (fun a => decide ((articlesByAuthorInMag db a.id mid).length > 2))).map
            (fun r => ⟨r.name, some r.id⟩)) := by
  simp only [Magazine.contributing_authors, hm]
  exact mapExcept_ok_of_forall (fun x hx =>
    author_create_instance_ok (hvalid x (List.mem_of_mem_filter hx)))

/-- C5: confirmed.  For a persisted magazine over a store with valid author
rows, `contributing_authors()` contains exactly the authors with strictly
more than 2 article rows in that magazine; an author with exactly 2 such
articles is excluded, and creating a 3rd article for them in that magazine
moves them into the result set. -/
theorem claim_c5_contributing_authors_more_than_two
    (db : DB) (m : Magazine) (mid : Nat) (row : AuthorRow) (t : String)
    (hm : m.id = some mid)
    (hvalid : ∀ r ∈ db.authors, authorNameOk r.name = true)
    (hrow : row ∈ db.authors)
    (hcount : (articlesByAuthorInMag db row.id mid).length = 2)
    (ht1 : 0 < t.length) (ht2 : t.length ≤ 50) :
    ∃ l, Magazine.contributing_authors m db = .ok l ∧
      (∀ (i : Nat) (nm : Value), (⟨nm, some i⟩ : Author) ∈ l ↔
        ∃ r ∈ db.authors, r.id = i ∧ r.name = nm ∧
          (articlesByAuthorInMag db i mid).length > 2) ∧
      (⟨row.name, some row.id⟩ : Author) ∉ l ∧
      (∃ l2, Magazine.contributing_authors m
          ((Article.create (.vstr t) (some row.id) (some mid) db).2) = .ok l2 ∧
        (⟨row.name, some row.id⟩ : Author) ∈ l2) := by
  refine ⟨_, contributing_authors_eq db m mid hm hvalid, ?_, ?_, ?_⟩
  · intro i nm
    constructor
    · intro hmem
      rcases List.mem_map.mp hmem with ⟨r, hrf, heq⟩
      have hr := List.mem_of_mem_filter hrf
      have hcnt := of_decide_eq_true (List.mem_filter.mp hrf).2
      injection heq with h1 h2
      injection h2 with h2
      subst h2
      exact ⟨r, hr, rfl, h1, hcnt⟩
    · rintro ⟨r, hr, hid, hname, hcnt⟩
      refine List.mem_map.mpr ⟨r, List.mem_filter.mpr ⟨hr, ?_⟩, ?_⟩
      · rw [hid]; exact decide_eq_true hcnt
      · rw [hid, hname]
  · intro hmem
    rcases List.mem_map.mp hmem with ⟨r, hrf, heq⟩
    have hcnt := of_decide_eq_true (List.mem_filter.mp hrf).2
    injection heq with h1 h2
    injection h2 with h2
    rw [h2] at hcnt
    omega
  · have hdb2 : (Article.create (.vstr t) (some row.id) (some mid) db).2
        = { db with articles :=
            db.articles ++ [⟨nextArticleId db, .vstr t, row.id, mid⟩] } := by
      simp [Article.create, applyTextAffinity, article_init_ok ht1 ht2]
    rw [hdb2]
    have hc2 : (articlesByAuthorInMag
        { db with articles := db.articles ++ [⟨nextArticleId db, .vstr t, row.id, mid⟩] }
        row.id mid).length = 3 := by
      have hsplit : articlesByAuthorInMag
          { db with articles := db.articles ++ [⟨nextArticleId db, .vstr t, row.id, mid⟩] }
          row.id mid
          = articlesByAuthorInMag db row.id mid
            ++ [⟨nextArticleId db, .vstr t, row.id, mid⟩] := by
        simp [articlesByAuthorInMag]
      rw [hsplit, List.length_append, hcount]
      simp
    refine ⟨_, contributing_authors_eq _ m mid hm hvalid, ?_⟩
    refine List.mem_map.mpr ⟨row, List.mem_filter.mpr ⟨hrow, ?_⟩, rfl⟩
    rw [hc2]
    decide

/-- C5 witness: in a store where John Doe has exactly 2 articles in Tech
Today, he is not a contributing author; after a 3rd article he is. -/
theorem claim_c5_witness :
    ∃ l, Magazine.contributing_authors
        ⟨.vstr "Tech Today", .vstr "Technology", some 1⟩ dbTwoArticles = .ok l ∧
      (∀ (i : Nat) (nm : Value), (⟨nm, some i⟩ : Author) ∈ l ↔
        ∃ r ∈ dbTwoArticles.authors, r.id = i ∧ r.name = nm ∧
          (articlesByAuthorInMag dbTwoArticles i 1).length > 2) ∧
      (⟨.vstr "John Doe", some 1⟩ : Author) ∉ l ∧
      (∃ l2, Magazine.contributing_authors
          ⟨.vstr "Tech Today", .vstr "Technology", some 1⟩
          ((Article.create (.vstr "Advanced AI") (some 1) (some 1) dbTwoArticles).2)
          = .ok l2 ∧
        (⟨.vstr "John Doe", some 1⟩ : Author) ∈ l2) :=
  claim_c5_contributing_authors_more_than_two dbTwoArticles
    ⟨.vstr "Tech Today", .vstr "Technology", some 1⟩ 1 ⟨1, .vstr "John Doe"⟩
    "Advanced AI" rfl (by decide) (by decide) (by decide) (by decide) (by decide)

/-- C6: confirmed.  `top_publisher()` returns `None` exactly when no magazines
exist; otherwise — also when no articles exist at all, since the LEFT JOIN
keeps zero-count magazines — it returns a magazine whose article count is
maximal over all magazines. -/
theorem claim_c6_top_publisher_maximal
    (db : DB)
    (hvalid : ∀ r ∈ db.magazines,
      magazineNameOk r.name = true ∧ magazineCategoryOk r.category = true) :
    (Magazine.top_publisher db = .ok none ↔ db.magazines = []) ∧
    (db.magazines ≠ [] →
      ∃ row ∈ db.magazines,
        Magazine.top_publisher db = .ok (some ⟨row.name, row.category, some row.id⟩) ∧
        ∀ r2 ∈ db.magazines,
          magazineArticleCount db r2.id ≤ magazineArticleCount db row.id) := by
  cases hm : db.magazines.argmax (fun r => magazineArticleCount db r.id) with
  | none =>
    have hempty : db.magazines = [] := List.argmax_eq_none.mp hm
    constructor
    · simp [Magazine.top_publisher, hm, hempty]
    · intro h; exact absurd hempty h
  | some row =>
    have hrowmem : row ∈ db.magazines :=
      mem_of_argmax_fn (fun r => magazineArticleCount db r.id) db.magazines row hm
    obtain ⟨hn, hc⟩ := hvalid row hrowmem
    have htop : Magazine.top_publisher db
        = .ok (some ⟨row.name, row.category, some row.id⟩) := by
      simp [Magazine.top_publisher, hm, magazine_create_instance_ok hn hc]
    constructor
    · rw [htop]
      constructor
      · intro h; simp at h
      · intro h; rw [h] at hrowmem; cases hrowmem
    · intro _
      exact ⟨row, hrowmem, htop, fun r2 hr2 =>
        le_of_argmax_fn (fun r => magazineArticleCount db r.id) db.magazines r2 row hr2 hm⟩

/-- C6 witness: over the seed store the top publisher is Tech Today. -/
theorem claim_c6_witness :
    (Magazine.top_publisher dbSeed = .ok none ↔ dbSeed.magazines = []) ∧
    (dbSeed.magazines ≠ [] →
      ∃ row ∈ dbSeed.magazines,
        Magazine.top_publisher dbSeed
          = .ok (some ⟨row.name, row.category, some row.id⟩) ∧
        ∀ r2 ∈ dbSeed.magazines,
          magazineArticleCount dbSeed r2.id ≤ magazineArticleCount dbSeed row.id) :=
  claim_c6_top_publisher_maximal dbSeed (by decide)

/-- C8: confirmed.  Construction of any of the three entities never touches
the store (the constructors contain no database call), and construction with
a string outside the length bounds or a non-string value raises a
`ValidationError`. -/
theorem claim_c8_construction_validates
    (av mn mc t anyv : Value) (ia im ix aidv midv : Option Nat) (db : DB)
    (hn : authorNameOk av = false)
    (hmc : (magazineNameOk mn && magazineCategoryOk mc) = false)
    (ht : articleTitleOk t = false) :
    (Author.initOp anyv ia db).2 = db ∧
    (Magazine.initOp anyv anyv im db).2 = db ∧
    (Article.initOp anyv aidv midv ix db).2 = db ∧
    (∃ e, (Author.initOp av ia db).1 = .error e ∧ e.isValidation = true) ∧
    (∃ e, (Magazine.initOp mn mc im db).1 = .error e ∧ e.isValidation = true) ∧
    (∃ e, (Article.initOp t aidv midv ix db).1 = .error e ∧ e.isValidation = true) := by
  refine ⟨rfl, rfl, rfl, ?_, ?_, ?_⟩
  · exact ⟨.validationError "Name must be a string between 1 and 255 characters.",
      by simp [Author.initOp, Author.init, hn], rfl⟩
  · cases hmn : magazineNameOk mn with
    | false =>
      exact ⟨.validationError "Name must be a string between 2 and 16 characters.",
        by simp [Magazine.initOp, Magazine.init, hmn], rfl⟩
    | true =>
      have hcat : magazineCategoryOk mc = false := by simpa [hmn] using hmc
      exact ⟨.validationError "Category must be a string between 1 and 20 characters.",
        by simp [Magazine.initOp, Magazine.init, hmn, hcat], rfl⟩
  · exact ⟨.validationError "Title must be a string between 1 and 50 characters.",
      by simp [Article.initOp, Article.init, ht], rfl⟩

/-- C8 witness: a non-string author name, an over-length magazine name and an
empty article title each fail construction; a valid construction leaves the
store unchanged as well. -/
theorem claim_c8_witness :
    (Author.initOp (.vstr "Ok Name") (some 7) dbSeed).2 = dbSeed ∧
    (Magazine.initOp (.vstr "Ok Name") (.vstr "Ok Name") (some 7) dbSeed).2 = dbSeed ∧
    (Article.initOp (.vstr "Ok Name") (some 1) (some 1) (some 7) dbSeed).2 = dbSeed ∧
    (∃ e, (Author.initOp (.vint 123) (some 7) dbSeed).1 = .error e ∧
      e.isValidation = true) ∧
    (∃ e, (Magazine.initOp (.vstr "TooLongNameForMagazine") (.vstr "Fashion")
        (some 7) dbSeed).1 = .error e ∧ e.isValidation = true) ∧
    (∃ e, (Article.initOp (.vstr "") (some 1) (some 1) (some 7) dbSeed).1
        = .error e ∧ e.isValidation = true) :=
  claim_c8_construction_validates (.vint 123) (.vstr "TooLongNameForMagazine")
    (.vstr "Fashion") (.vstr "") (.vstr "Ok Name") (some 7) (some 7) (some 7)
    (some 1) (some 1) dbSeed (by decide) (by decide) (by decide)

/-- Re-construction of an invalid magazine row fails with a validation error. -/
theorem Magazine.create_instance_invalid {row : MagazineRow}
    (h : (magazineNameOk row.name && magazineCategoryOk row.category) = false) :
    ∃ e, Magazine.create_instance row = .error e ∧ e.isValidation = true := by
  cases hn : magazineNameOk row.name with
  | false =>
    exact ⟨.validationError "Name must be a string between 2 and 16 characters.",
      by simp [Magazine.create_instance, Magazine.init, hn], rfl⟩
  | true =>
    have hc : magazineCategoryOk row.category = false := by simpa [hn] using h
    exact ⟨.validationError "Category must be a string between 1 and 20 characters.",
      by simp [Magazine.create_instance, Magazine.init, hn, hc], rfl⟩

/-- Every error `Magazine._create_instance` can produce is a validation error. -/
theorem Magazine.create_instance_error_isValidation {row : MagazineRow} {e : Err}
    (h : Magazine.create_instance row = .error e) : e.isValidation = true := by
  unfold Magazine.create_instance Magazine.init at h
  split at h
  · cases h; rfl
  · split at h
    · cases h; rfl
    · cases h

/-- C9: confirmed.  When a stored row violates the validation constraints,
the finders raise the `ValidationError` of the constructor instead of returning an
entity or `None`: `find_by_id`, `find_by_name` and `get_all` for a bad
magazine row, and `find_by_id` for a bad author row and a bad article row. -/
theorem claim_c9_finders_raise_on_invalid_rows
    (db : DB) (mi ai xi : Nat) (nmv : Value)
    (mrow : MagazineRow) (arow : AuthorRow) (xrow : ArticleRow)
    (hmfind : db.magazines.find? (fun r => r.id == mi) = some mrow)
    (hmbad : (magazineNameOk mrow.name && magazineCategoryOk mrow.category) = false)
    (hnfind : db.magazines.find? (fun r => sqlEq r.name nmv) = some mrow)
    (hafind : db.authors.find? (fun r => r.id == ai) = some arow)
    (habad : authorNameOk arow.name = false)
    (hxfind : db.articles.find? (fun r => r.id == xi) = some xrow)
    (hxbad : articleTitleOk xrow.title = false) :
    (∃ e, Magazine.find_by_id mi db = .error e ∧ e.isValidation = true) ∧
    (∃ e, Magazine.find_by_name nmv db = .error e ∧ e.isValidation = true) ∧
    (∃ e, Magazine.get_all db = .error e ∧ e.isValidation = true) ∧
    (∃ e, Author.find_by_id ai db = .error e ∧ e.isValidation = true) ∧
    (∃ e, Article.find_by_id xi db = .error e ∧ e.isValidation = true) := by
  obtain ⟨em, hem, hemv⟩ := Magazine.create_instance_invalid hmbad
  refine ⟨⟨em, ?_, hemv⟩, ⟨em, ?_, hemv⟩, ?_, ?_, ?_⟩
  · simp [Magazine.find_by_id, hmfind, hem]
  · simp [Magazine.find_by_name, hnfind, hem]
  · simpa [Magazine.get_all] using
      mapExcept_error_of_mem Magazine.create_instance
        (fun y e he => Magazine.create_instance_error_isValidation he)
        (List.mem_of_find?_eq_some hmfind) hem
  · refine ⟨.validationError "Name must be a string between 1 and 255 characters.",
      ?_, rfl⟩
    simp [Author.find_by_id, hafind, Author.create_instance, Author.init, habad]
  · refine ⟨.validationError "Title must be a string between 1 and 50 characters.",
      ?_, rfl⟩
    simp [Article.find_by_id, hxfind, Article.create_instance, Article.init, hxbad]

/-- C9 witness: over a store holding an author with an empty name, a magazine
with a 1-character name and an article with an empty title, every finder
raises a validation error. -/
theorem claim_c9_witness :
    (∃ e, Magazine.find_by_id 1 dbBadRows = .error e ∧ e.isValidation = true) ∧
    (∃ e, Magazine.find_by_name (.vstr "a") dbBadRows = .error e ∧
      e.isValidation = true) ∧
    (∃ e, Magazine.get_all dbBadRows = .error e ∧ e.isValidation = true) ∧
    (∃ e, Author.find_by_id 1 dbBadRows = .error e ∧ e.isValidation = true) ∧
    (∃ e, Article.find_by_id 1 dbBadRows = .error e ∧ e.isValidation = true) :=
  claim_c9_finders_raise_on_invalid_rows dbBadRows 1 1 1 (.vstr "a")
    ⟨1, .vstr "a", .vstr "Cat"⟩ ⟨1, .vstr ""⟩ ⟨1, .vstr "", 1, 1⟩
    rfl (by decide) rfl rfl (by decide) rfl (by decide)
